import Mathlib

/-!
Shallow embedding of the GitHubSync server core: the in-memory storage layer
(`MemStorage` in server/storage.ts) and the Express route handlers in
server/routes.ts that the specification's claims are about.

Modelling conventions:
* JavaScript `Map` objects whose keys are the stored records' monotonically
  assigned ids are modelled as insertion-ordered lists of records
  (`Array.from(map.values())` yields insertion order; `map.set` on an existing
  key replaces in place).
* `undefined` / absent JSON fields are `Option` with `none`.
* JavaScript string truthiness (`v || d`, `!v`, `...(sha && { sha })`) is
  modelled explicitly: `none` and the empty string are falsy.
* Timestamps (`new Date()`) are `Nat` values supplied by a clock parameter.
* The remote GitHub contents API is external to the repository; each handler
  takes an oracle giving the store's response to the request body it sends.
* The `repositories` table of storage.ts is not touched by any embedded route
  and is omitted from the state.
-/

/-- JavaScript `v || d` on an optional string: `none` and `""` are falsy. -/
def jsOrStr (v : Option String) (d : String) : String :=
  match v with
  | some s => if s = "" then d else s
  | none => d

/-- JavaScript truthiness filter: `none` and `""` become `none`. -/
def jsTruthy (v : Option String) : Option String :=
  match v with
  | some s => if s = "" then none else some s
  | none => none

/-- JavaScript `v || null` on an optional string field. -/
def jsOrNull (v : Option String) : Option String :=
  jsTruthy v

/-- Free-form `metadata` jsonb column, restricted to the shapes the routes
actually write: `{ message, size }` for uploads, `{ message }` for deletes. -/
structure OpMetadata where
  message : Option String
  size : Option Nat
deriving Repr, DecidableEq

/-- Row of the `file_operations` table (shared/schema.ts). -/
structure FileOperation where
  id : Nat
  userId : Nat
  repositoryId : Int
  operation : String
  filePath : String
  branch : String
  status : String
  metadata : Option OpMetadata
  createdAt : Nat
deriving Repr, DecidableEq

/-- Insert shape for `file_operations` (`insertFileOperationSchema` omits
`id` and `createdAt`; `status` and `metadata` may be absent). -/
structure InsertFileOperation where
  userId : Nat
  repositoryId : Int
  operation : String
  filePath : String
  branch : String
  status : Option String
  metadata : Option OpMetadata
deriving Repr, DecidableEq

/-- Row of the `users` table (shared/schema.ts). -/
structure User where
  id : Nat
  githubId : String
  username : String
  email : Option String
  avatarUrl : Option String
  accessToken : String
  createdAt : Nat
deriving Repr, DecidableEq

/-- Insert shape for `users` (`insertUserSchema` omits `id`, `createdAt`). -/
structure InsertUser where
  githubId : String
  username : String
  email : Option String
  avatarUrl : Option String
  accessToken : String
deriving Repr, DecidableEq

/-- State of `MemStorage` (server/storage.ts), restricted to the tables the
embedded routes touch. -/
structure MemStorage where
  users : List User
  fileOperations : List FileOperation
  currentUserId : Nat
  currentOpId : Nat
deriving Repr, DecidableEq

/-- MemStorage.getUser: `this.users.get(id)`. -/
def MemStorage.getUser (s : MemStorage) (id : Nat) : Option User :=
  s.users.find? (fun u => u.id == id)

/-- MemStorage.getUserByGithubId. -/
def MemStorage.getUserByGithubId (s : MemStorage) (githubId : String) : Option User :=
  s.users.find? (fun u => u.githubId == githubId)

/-- MemStorage.createUser: assigns `currentUserId++`, applies the `|| null`
per-field fallback, stamps `createdAt`, and stores the new user. -/
def MemStorage.createUser (s : MemStorage) (iu : InsertUser) (now : Nat) :
    User × MemStorage :=
  let id := s.currentUserId
  let user : User :=
    { id := id, githubId := iu.githubId, username := iu.username,
      email := jsOrNull iu.email, avatarUrl := jsOrNull iu.avatarUrl,
      accessToken := iu.accessToken, createdAt := now }
  (user, { s with users := s.users ++ [user], currentUserId := id + 1 })

/-- MemStorage.updateUserToken: replaces the stored user's `accessToken` in
place when the id exists. -/
def MemStorage.updateUserToken (s : MemStorage) (id : Nat) (accessToken : String) :
    Option User × MemStorage :=
  match s.users.find? (fun u => u.id == id) with
  | some user =>
      let updated := { user with accessToken := accessToken }
      (some updated,
       { s with users := s.users.map (fun u => if u.id == id then updated else u) })
  | none => (none, s)

/-- MemStorage.createFileOperation: assigns `currentOpId++`, defaults
`status` to "pending" and `metadata` to null, stamps `createdAt`, stores. -/
def MemStorage.createFileOperation (s : MemStorage) (iop : InsertFileOperation)
    (now : Nat) : FileOperation × MemStorage :=
  let id := s.currentOpId
  let op : FileOperation :=
    { id := id, userId := iop.userId, repositoryId := iop.repositoryId,
      operation := iop.operation, filePath := iop.filePath, branch := iop.branch,
      status := iop.status.getD "pending", metadata := iop.metadata,
      createdAt := now }
  (op, { s with fileOperations := s.fileOperations ++ [op], currentOpId := id + 1 })

/-- Ordering relation used by `getUserFileOperations`'s comparator
`(a, b) => b.createdAt - a.createdAt`: `a` sorts no later than `b` when `a`'s
timestamp is at least `b`'s (descending by `createdAt`). -/
def opLater (a b : FileOperation) : Prop :=
  b.createdAt ≤ a.createdAt

instance : DecidableRel opLater := fun _ _ => Nat.decLe _ _

instance : IsTotal FileOperation opLater :=
  ⟨fun a b => (Nat.le_total b.createdAt a.createdAt).imp id id⟩

instance : IsTrans FileOperation opLater :=
  ⟨fun _ _ _ hab hbc => Nat.le_trans hbc hab⟩

/-- MemStorage.getUserFileOperations: filter the user's operations, stable-sort
descending by `createdAt` (Array.prototype.sort is stable; a stable insertion
sort computes the same list), and take the first `limit` (default 10 at the
source; the limit is passed explicitly here). -/
def MemStorage.getUserFileOperations (s : MemStorage) (userId : Nat) (limit : Nat) :
    List FileOperation :=
  (((s.fileOperations.filter (fun op => op.userId == userId)).insertionSort
      opLater).take limit)

/-- MemStorage.updateFileOperationStatus: if the id exists, unconditionally
replaces the stored record's `status` with the supplied value. -/
def MemStorage.updateFileOperationStatus (s : MemStorage) (id : Nat)
    (status : String) : Option FileOperation × MemStorage :=
  match s.fileOperations.find? (fun op => op.id == id) with
  | some operation =>
      let updated := { operation with status := status }
      (some updated,
       { s with fileOperations :=
          s.fileOperations.map (fun op => if op.id == id then updated else op) })
  | none => (none, s)

/-- Session lookup `(req.session as any).userId` followed by the handlers'
`if (!userId)` truthiness check: an absent session, an absent userId, or the
falsy id 0 all read as "not authenticated". -/
def sessionUserId (session : Option Nat) : Option Nat :=
  match session with
  | some uid => if uid = 0 then none else some uid
  | none => none

/-- Body of the JSON payload a route sends to the GitHub contents API
(`JSON.stringify` drops fields whose value is `undefined`, so absent fields
are `none`). `content` is `none` for the DELETE body, which carries none. -/
structure WriteRequestBody where
  message : String
  content : Option String
  branch : String
  sha : Option String
deriving Repr, DecidableEq

/-- Response body the remote store returned (`await response.json()`); the
routes only ever read its `message` field. -/
structure StoreResult where
  message : Option String
deriving Repr, DecidableEq

/-- Outcome of one `fetch` to the remote store: a response with `ok` true, a
response with `ok` false, or a thrown error (network failure / rejected
promise), carrying `error.message` when the thrown value was an `Error`. -/
inductive FetchOutcome where
  | ok (result : StoreResult)
  | httpError (result : StoreResult)
  | threw (errMessage : Option String)
deriving Repr, DecidableEq

/-- One element of the batch request's `files` array. -/
structure BatchFile where
  path : String
  content : String
deriving Repr, DecidableEq

/-- The `files` field of the batch request body as received: absent, present
but not an array, or an array. `Array.isArray(files)` is false in the first
two cases. -/
inductive FilesField where
  | missing
  | nonArray
  | arr (files : List BatchFile)
deriving Repr, DecidableEq

/-- Body of POST /api/repositories/:owner/:repo/upload-batch. -/
structure BatchRequestBody where
  files : FilesField
  branch : Option String
  message : Option String
deriving Repr, DecidableEq

/-- Body of PUT /api/repositories/:owner/:repo/contents/*. -/
structure PutBody where
  content : String
  message : Option String
  branch : Option String
  sha : Option String
deriving Repr, DecidableEq

/-- Body of DELETE /api/repositories/:owner/:repo/contents/*. -/
structure DeleteBody where
  message : Option String
  branch : Option String
  sha : Option String
deriving Repr, DecidableEq

/-- Request body the single-file PUT route sends to the store:
`{ message: message || `Upload ${filePath}`, content, branch, ...(sha && { sha }) }`. -/
def putRequestBody (message : Option String) (content : String) (branch : String)
    (sha : Option String) (filePath : String) : WriteRequestBody :=
  { message := jsOrStr message ("Upload " ++ filePath), content := some content,
    branch := branch, sha := jsTruthy sha }

/-- Request body the single-file DELETE route sends to the store:
`{ message: message || `Delete ${filePath}`, sha, branch }` (the `sha` field is
included verbatim; `JSON.stringify` drops it when it is `undefined`). -/
def deleteRequestBody (message : Option String) (branch : String)
    (sha : Option String) (filePath : String) : WriteRequestBody :=
  { message := jsOrStr message ("Delete " ++ filePath), content := none,
    branch := branch, sha := sha }

/-- Request body the batch route sends to the store for one file:
`{ message: message || `Upload ${file.path}`, content: file.content, branch }` —
no `sha` field is ever present. -/
def batchWriteBody (message : Option String) (branch : String) (file : BatchFile) :
    WriteRequestBody :=
  { message := jsOrStr message ("Upload " ++ file.path), content := some file.content,
    branch := branch, sha := none }

/-- Modelled from the spec: the remote content-versioned store's
"create-or-update requires current blob hash" contract (spec sections 2 and
4.3). The store itself (GitHub's contents API) is external to the repository,
so only its contract is modelled: a write to a path that already exists
succeeds only when the request carries that path's current content hash; a
write to a fresh path needs no hash. `existing` maps each existing path to its
current hash. -/
def storeWriteOk (existing : List (String × String)) (path : String)
    (body : WriteRequestBody) : Bool :=
  match existing.lookup path with
  | some currentSha => body.sha == some currentSha
  | none => true

/-- Result of the single-file PUT / DELETE routes: the route answers 401 with
no session, 404 with no stored user, 500 when the `try` block threw, and
otherwise forwards the store's JSON body (even when the store answered with a
non-success status). -/
inductive SingleFileResult where
  | notAuthenticated
  | userNotFound
  | serverError
  | ok (result : StoreResult)
deriving Repr, DecidableEq

/-- Handler of PUT /api/repositories/:owner/:repo/contents/* (routes.ts): sends
one write to the store, then logs one ledger entry whose status reflects
`uploadResponse.ok`, then returns the store's body. A thrown fetch lands in the
route's catch block: 500 and nothing is logged. -/
def putHandler (oracle : WriteRequestBody → FetchOutcome) (now : Nat)
    (session : Option Nat) (filePath : String) (body : PutBody) (s : MemStorage) :
    SingleFileResult × MemStorage :=
  match sessionUserId session with
  | none => (.notAuthenticated, s)
  | some userId =>
    match s.getUser userId with
    | none => (.userNotFound, s)
    | some _user =>
      let branch := body.branch.getD "main"
      match oracle (putRequestBody body.message body.content branch body.sha filePath) with
      | .threw _ => (.serverError, s)
      | .ok result =>
          let logged := s.createFileOperation
            { userId := userId, repositoryId := 0, operation := "upload",
              filePath := filePath, branch := branch, status := some "completed",
              metadata := some { message := body.message, size := some body.content.length } }
            now
          (.ok result, logged.2)
      | .httpError result =>
          let logged := s.createFileOperation
            { userId := userId, repositoryId := 0, operation := "upload",
              filePath := filePath, branch := branch, status := some "failed",
              metadata := some { message := body.message, size := some body.content.length } }
            now
          (.ok result, logged.2)

/-- Handler of DELETE /api/repositories/:owner/:repo/contents/* (routes.ts):
sends one delete to the store, logs one ledger entry whose status reflects
`deleteResponse.ok`, returns the store's body. -/
def deleteHandler (oracle : WriteRequestBody → FetchOutcome) (now : Nat)
    (session : Option Nat) (filePath : String) (body : DeleteBody) (s : MemStorage) :
    SingleFileResult × MemStorage :=
  match sessionUserId session with
  | none => (.notAuthenticated, s)
  | some userId =>
    match s.getUser userId with
    | none => (.userNotFound, s)
    | some _user =>
      let branch := body.branch.getD "main"
      match oracle (deleteRequestBody body.message branch body.sha filePath) with
      | .threw _ => (.serverError, s)
      | .ok result =>
          let logged := s.createFileOperation
            { userId := userId, repositoryId := 0, operation := "delete",
              filePath := filePath, branch := branch, status := some "completed",
              metadata := some { message := body.message, size := none } }
            now
          (.ok result, logged.2)
      | .httpError result =>
          let logged := s.createFileOperation
            { userId := userId, repositoryId := 0, operation := "delete",
              filePath := filePath, branch := branch, status := some "failed",
              metadata := some { message := body.message, size := none } }
            now
          (.ok result, logged.2)

/-- One element of the batch response's `results` array:
`{ path, success: true, result }`. -/
structure ResultEntry where
  path : String
  success : Bool
  result : StoreResult
deriving Repr, DecidableEq

/-- One element of the batch response's `errors` array: `{ path, error }`. -/
structure ErrorEntry where
  path : String
  error : String
deriving Repr, DecidableEq

/-- JSON body the batch route answers with. -/
structure BatchResponse where
  success : Bool
  uploaded : Nat
  failed : Nat
  results : List ResultEntry
  errors : List ErrorEntry
deriving Repr, DecidableEq

/-- Result of the batch route: 401, 404, the 400 validation rejection
("Files array is required"), or the 200 aggregate. -/
inductive BatchResult where
  | notAuthenticated
  | userNotFound
  | filesRequired
  | ok (resp : BatchResponse)
deriving Repr, DecidableEq

/-- Per-file loop of the batch route (`for (const file of files)`): sends one
write per file; on a store success pushes a result entry and logs one
"completed" ledger entry; on a store-reported failure pushes
`result.message || "Upload failed"`; on a thrown error pushes
`error.message` or "Unknown error". The loop never aborts early. `oracle`
gives the store's outcome for the write at each loop index, and `clock` that
iteration's timestamp. -/
def batchLoop (oracle : Nat → WriteRequestBody → FetchOutcome) (clock : Nat → Nat)
    (userId : Nat) (branch : String) (message : Option String) :
    List BatchFile → Nat → List ResultEntry → List ErrorEntry → MemStorage →
    List ResultEntry × List ErrorEntry × MemStorage
  | [], _, results, errors, s => (results, errors, s)
  | file :: rest, idx, results, errors, s =>
    match oracle idx (batchWriteBody message branch file) with
    | .ok result =>
        let logged := s.createFileOperation
          { userId := userId, repositoryId := 0, operation := "upload",
            filePath := file.path, branch := branch, status := some "completed",
            metadata := some { message := message, size := some file.content.length } }
          (clock idx)
        batchLoop oracle clock userId branch message rest (idx + 1)
          (results ++ [{ path := file.path, success := true, result := result }])
          errors logged.2
    | .httpError result =>
        batchLoop oracle clock userId branch message rest (idx + 1) results
          (errors ++ [{ path := file.path,
                        error := jsOrStr result.message "Upload failed" }]) s
    | .threw errMessage =>
        batchLoop oracle clock userId branch message rest (idx + 1) results
          (errors ++ [{ path := file.path,
                        error := errMessage.getD "Unknown error" }]) s

/-- Handler of POST /api/repositories/:owner/:repo/upload-batch (routes.ts):
auth check, user lookup, `!Array.isArray(files) || files.length === 0`
validation, then the per-file loop, then the aggregate
`{ success: errors.length === 0, uploaded: results.length,
failed: errors.length, results, errors }`. -/
def uploadBatchHandler (oracle : Nat → WriteRequestBody → FetchOutcome)
    (clock : Nat → Nat) (session : Option Nat) (body : BatchRequestBody)
    (s : MemStorage) : BatchResult × MemStorage :=
  match sessionUserId session with
  | none => (.notAuthenticated, s)
  | some userId =>
    match s.getUser userId with
    | none => (.userNotFound, s)
    | some _user =>
      match body.files with
      | .arr files =>
          if files.isEmpty then (.filesRequired, s)
          else
            let branch := body.branch.getD "main"
            let out := batchLoop oracle clock userId branch body.message files 0 [] [] s
            (.ok { success := out.2.1.length == 0, uploaded := out.1.length,
                   failed := out.2.1.length, results := out.1, errors := out.2.1 },
             out.2.2)
      | _ => (.filesRequired, s)

/-- User object as serialized to the client: `accessToken = none` models both
an absent field (rest-destructuring it away) and a field explicitly set to
`undefined` (which `JSON.stringify` drops). -/
structure ClientUser where
  id : Nat
  githubId : String
  username : String
  email : Option String
  avatarUrl : Option String
  accessToken : Option String
  createdAt : Nat
deriving Repr, DecidableEq

/-- The GET /api/user idiom `const { accessToken, ...userWithoutToken } = user`. -/
def omitAccessToken (u : User) : ClientUser :=
  { id := u.id, githubId := u.githubId, username := u.username, email := u.email,
    avatarUrl := u.avatarUrl, accessToken := none, createdAt := u.createdAt }

/-- The POST /api/auth/token idiom `{ ...user, accessToken: undefined }`. -/
def withUndefinedToken (u : User) : ClientUser :=
  { id := u.id, githubId := u.githubId, username := u.username, email := u.email,
    avatarUrl := u.avatarUrl, accessToken := none, createdAt := u.createdAt }

/-- Result of GET /api/user. -/
inductive GetUserResult where
  | notAuthenticated
  | userNotFound
  | ok (user : ClientUser)
deriving Repr, DecidableEq

/-- Handler of GET /api/user (routes.ts): looks the session's user up and
answers with the user minus its `accessToken` field. -/
def getUserHandler (session : Option Nat) (s : MemStorage) :
    GetUserResult × MemStorage :=
  match sessionUserId session with
  | none => (.notAuthenticated, s)
  | some userId =>
    match s.getUser userId with
    | none => (.userNotFound, s)
    | some u => (.ok (omitAccessToken u), s)

/-- GitHub's /user response as consumed by the token route. -/
structure GithubUser where
  id : Nat
  login : String
  email : Option String
  avatarUrl : String
deriving Repr, DecidableEq

/-- Result of POST /api/auth/token: 400 when the body has no (truthy) token,
401 when GitHub rejects the token, else `{ success: true, user }` where `user`
is the stored user spread with `accessToken: undefined` (the stored lookup is
typed as possibly undefined, hence the `Option`). -/
inductive TokenAuthResult where
  | tokenRequired
  | invalidToken
  | ok (user : Option ClientUser)
deriving Repr, DecidableEq

/-- Handler of POST /api/auth/token (routes.ts): validates the token against
GitHub (`tokenValid` is the oracle for `userResponse.ok`, `ghUser` the parsed
GitHub user), creates or re-tokens the stored user, sets the session, and
answers with the user spread with `accessToken: undefined`. -/
def tokenAuthHandler (tokenValid : Bool) (ghUser : GithubUser) (now : Nat)
    (token : Option String) (s : MemStorage) : TokenAuthResult × MemStorage :=
  match jsTruthy token with
  | none => (.tokenRequired, s)
  | some tok =>
    if tokenValid then
      match s.getUserByGithubId (toString ghUser.id) with
      | none =>
          let created := s.createUser
            { githubId := toString ghUser.id, username := ghUser.login,
              email := ghUser.email, avatarUrl := some ghUser.avatarUrl,
              accessToken := tok } now
          (.ok (some (withUndefinedToken created.1)), created.2)
      | some existing =>
          let updated := s.updateUserToken existing.id tok
          (.ok (updated.1.map withUndefinedToken), updated.2)
    else (.invalidToken, s)

/-- Result of GET /api/activity. -/
inductive ActivityResult where
  | notAuthenticated
  | ok (operations : List FileOperation)
deriving Repr, DecidableEq

/-- Handler of GET /api/activity (routes.ts): answers with
`storage.getUserFileOperations(userId, 10)` and changes nothing. -/
def activityHandler (session : Option Nat) (s : MemStorage) :
    ActivityResult × MemStorage :=
  match sessionUserId session with
  | none => (.notAuthenticated, s)
  | some userId => (.ok (s.getUserFileOperations userId 10), s)

/-- Validation predicate of the batch route:
`!Array.isArray(files) || files.length === 0`. -/
def filesFieldInvalid : FilesField → Bool
  | .arr files => files.isEmpty
  | _ => true

/-- Whether a fetch outcome is a store success (`response.ok`). -/
def oracleOk : FetchOutcome → Bool
  | .ok _ => true
  | _ => false

/-- Ledger record the batch loop creates for one successfully written file. -/
def mkBatchOp (userId : Nat) (branch : String) (message : Option String)
    (file : BatchFile) (opId : Nat) (time : Nat) : FileOperation :=
  { id := opId, userId := userId, repositoryId := 0, operation := "upload",
    filePath := file.path, branch := branch, status := "completed",
    metadata := some { message := message, size := some file.content.length },
    createdAt := time }

/-- Closed form of the `results` array the batch loop accumulates from loop
index `idx` on. -/
def expResults (oracle : Nat → WriteRequestBody → FetchOutcome)
    (message : Option String) (branch : String) :
    List BatchFile → Nat → List ResultEntry
  | [], _ => []
  | file :: rest, idx =>
    match oracle idx (batchWriteBody message branch file) with
    | .ok result =>
        { path := file.path, success := true, result := result } ::
          expResults oracle message branch rest (idx + 1)
    | _ => expResults oracle message branch rest (idx + 1)

/-- Closed form of the `errors` array the batch loop accumulates from loop
index `idx` on. -/
def expErrors (oracle : Nat → WriteRequestBody → FetchOutcome)
    (message : Option String) (branch : String) :
    List BatchFile → Nat → List ErrorEntry
  | [], _ => []
  | file :: rest, idx =>
    match oracle idx (batchWriteBody message branch file) with
    | .ok _ => expErrors oracle message branch rest (idx + 1)
    | .httpError result =>
        { path := file.path, error := jsOrStr result.message "Upload failed" } ::
          expErrors oracle message branch rest (idx + 1)
    | .threw errMessage =>
        { path := file.path, error := errMessage.getD "Unknown error" } ::
          expErrors oracle message branch rest (idx + 1)

/-- Closed form of the ledger records the batch loop appends, starting at loop
index `idx` with next operation id `opId`. -/
def expOps (oracle : Nat → WriteRequestBody → FetchOutcome) (clock : Nat → Nat)
    (userId : Nat) (branch : String) (message : Option String) :
    List BatchFile → Nat → Nat → List FileOperation
  | [], _, _ => []
  | file :: rest, idx, opId =>
    match oracle idx (batchWriteBody message branch file) with
    | .ok _ =>
        mkBatchOp userId branch message file opId (clock idx) ::
          expOps oracle clock userId branch message rest (idx + 1) (opId + 1)
    | _ => expOps oracle clock userId branch message rest (idx + 1) opId

/-- Number of store successes the batch loop sees from loop index `idx` on. -/
def countOk (oracle : Nat → WriteRequestBody → FetchOutcome)
    (message : Option String) (branch : String) : List BatchFile → Nat → Nat
  | [], _ => 0
  | file :: rest, idx =>
    match oracle idx (batchWriteBody message branch file) with
    | .ok _ => 1 + countOk oracle message branch rest (idx + 1)
    | _ => countOk oracle message branch rest (idx + 1)

/-- Concrete user fixture. -/
def wUser : User :=
  { id := 1, githubId := "42", username := "alice", email := none,
    avatarUrl := none, accessToken := "tok123", createdAt := 0 }

/-- Second concrete user fixture. -/
def wUser2 : User :=
  { id := 2, githubId := "77", username := "bob", email := none,
    avatarUrl := none, accessToken := "tok456", createdAt := 0 }

/-- Concrete storage fixture: one user, empty ledger. -/
def wStore : MemStorage :=
  { users := [wUser], fileOperations := [], currentUserId := 2, currentOpId := 1 }

/-- Oracle that reports a store failure for every write. -/
def c1Oracle : Nat → WriteRequestBody → FetchOutcome :=
  fun _ _ => .httpError { message := some "Invalid request" }

/-- Single-file list fixture for the failing batch. -/
def c1Files : List BatchFile := [{ path := "a.txt", content := "x" }]

/-- Single-file batch body fixture. -/
def c1Body : BatchRequestBody :=
  { files := .arr c1Files, branch := none, message := none }

/-- Constant clock fixture. -/
def c1Clock : Nat → Nat := fun _ => 0

/-- Oracle fixture: the first write fails at the store, later writes succeed. -/
def wBatchOracle : Nat → WriteRequestBody → FetchOutcome :=
  fun idx _ =>
    if idx == 0 then .httpError { message := none } else .ok { message := none }

/-- Two-file list fixture. -/
def wBatchFiles : List BatchFile :=
  [{ path := "a.txt", content := "x" }, { path := "b.txt", content := "y" }]

/-- Two-file batch body fixture. -/
def wBatchBody : BatchRequestBody :=
  { files := .arr wBatchFiles, branch := none, message := none }

/-- Clock fixture returning the loop index. -/
def wClock : Nat → Nat := fun i => i

/-- Concrete completed ledger record. -/
def c4op : FileOperation :=
  { id := 1, userId := 1, repositoryId := 0, operation := "upload",
    filePath := "a.txt", branch := "main", status := "completed",
    metadata := none, createdAt := 5 }

/-- Storage fixture holding one completed record. -/
def c4store : MemStorage :=
  { users := [wUser], fileOperations := [c4op], currentUserId := 2,
    currentOpId := 2 }

/-- Activity fixtures: two records of user 1 and one of user 2, with
timestamps out of insertion order. -/
def c5opA : FileOperation :=
  { id := 1, userId := 1, repositoryId := 0, operation := "upload",
    filePath := "a.txt", branch := "main", status := "completed",
    metadata := none, createdAt := 1 }

/-- Record of the other user. -/
def c5opB : FileOperation :=
  { id := 2, userId := 2, repositoryId := 0, operation := "upload",
    filePath := "b.txt", branch := "main", status := "completed",
    metadata := none, createdAt := 5 }

/-- Later record of user 1. -/
def c5opC : FileOperation :=
  { id := 3, userId := 1, repositoryId := 0, operation := "delete",
    filePath := "c.txt", branch := "main", status := "failed",
    metadata := none, createdAt := 3 }

/-- Storage fixture for the activity query. -/
def c5store : MemStorage :=
  { users := [wUser, wUser2], fileOperations := [c5opA, c5opB, c5opC],
    currentUserId := 3, currentOpId := 4 }

/-- Oracle fixture answering one successful write. -/
def wPutOracle : WriteRequestBody → FetchOutcome := fun _ => .ok { message := none }

/-- Oracle fixture answering one store-rejected write. -/
def wDelOracle : WriteRequestBody → FetchOutcome :=
  fun _ => .httpError { message := some "sha missing" }

/-- Ledger record the PUT fixture run creates. -/
def wPutOp : FileOperation :=
  { id := 1, userId := 1, repositoryId := 0, operation := "upload",
    filePath := "f.txt", branch := "main", status := "completed",
    metadata := some { message := none, size := some 1 }, createdAt := 7 }

/-- Ledger record the DELETE fixture run creates. -/
def wDelOp : FileOperation :=
  { id := 1, userId := 1, repositoryId := 0, operation := "delete",
    filePath := "g.txt", branch := "main", status := "failed",
    metadata := some { message := none, size := none }, createdAt := 8 }

/-- Ledger record the batch fixture run creates for its second file. -/
def wBatchOp : FileOperation :=
  { id := 1, userId := 1, repositoryId := 0, operation := "upload",
    filePath := "b.txt", branch := "main", status := "completed",
    metadata := some { message := none, size := some 1 }, createdAt := 1 }

/-- Aggregate the batch fixture run answers with. -/
def wBatchResp : BatchResponse :=
  { success := false, uploaded := 1, failed := 1,
    results := [{ path := "b.txt", success := true,
                  result := { message := none } }],
    errors := [{ path := "a.txt", error := "Upload failed" }] }

/-- Storage state after the batch fixture run. -/
def wBatchStore2 : MemStorage :=
  { users := [wUser], fileOperations := [wBatchOp], currentUserId := 2,
    currentOpId := 2 }

/-- Activity list the fixture query answers with: user 1's records newest
first. -/
def c5ops : List FileOperation := [c5opC, c5opA]

/-- Empty-array batch body fixture. -/
def c6Body : BatchRequestBody :=
  { files := .arr [], branch := none, message := none }

/-- PUT body fixture. -/
def wPutBody : PutBody :=
  { content := "x", message := none, branch := none, sha := none }

/-- DELETE body fixture. -/
def wDelBody : DeleteBody := { message := none, branch := none, sha := none }

/-- GitHub user fixture matching `wUser`'s stored githubId. -/
def wGhUser : GithubUser :=
  { id := 42, login := "alice", email := none, avatarUrl := "avatar" }

/-- Client-visible user object the GET /api/user fixture run answers with. -/
def wClientUser : ClientUser :=
  { id := 1, githubId := "42", username := "alice", email := none,
    avatarUrl := none, accessToken := none, createdAt := 0 }

/-- Client-visible user object for the second fixture user. -/
def wClientUser2 : ClientUser :=
  { id := 2, githubId := "77", username := "bob", email := none,
    avatarUrl := none, accessToken := none, createdAt := 0 }

/-- Storage state after the token-authentication fixture run re-tokens
`wUser`. -/
def wTokStore : MemStorage :=
  { users := [{ wUser with accessToken := "newtok" }], fileOperations := [],
    currentUserId := 2, currentOpId := 1 }

theorem batchLoop_eq (oracle : Nat → WriteRequestBody → FetchOutcome)
    (clock : Nat → Nat) (userId : Nat) (branch : String) (message : Option String) :
    ∀ (files : List BatchFile) (idx : Nat) (results : List ResultEntry)
      (errors : List ErrorEntry) (s : MemStorage),
      batchLoop oracle clock userId branch message files idx results errors s =
        (results ++ expResults oracle message branch files idx,
         errors ++ expErrors oracle message branch files idx,
         { users := s.users,
           fileOperations := s.fileOperations ++
             expOps oracle clock userId branch message files idx s.currentOpId,
           currentUserId := s.currentUserId,
           currentOpId := s.currentOpId + countOk oracle message branch files idx })
  | [], idx, results, errors, s => by
      simp [batchLoop, expResults, expErrors, expOps, countOk]
  | file :: rest, idx, results, errors, s => by
      cases h : oracle idx (batchWriteBody message branch file) with
      | ok result =>
          rw [batchLoop, h]
          dsimp only
          rw [batchLoop_eq oracle clock userId branch message rest (idx + 1)]
          simp [expResults, expErrors, expOps, countOk, h,
            MemStorage.createFileOperation, mkBatchOp, Nat.add_assoc]
      | httpError result =>
          rw [batchLoop, h]
          dsimp only
          rw [batchLoop_eq oracle clock userId branch message rest (idx + 1)]
          simp [expResults, expErrors, expOps, countOk, h]
      | threw errMessage =>
          rw [batchLoop, h]
          dsimp only
          rw [batchLoop_eq oracle clock userId branch message rest (idx + 1)]
          simp [expResults, expErrors, expOps, countOk, h]

theorem expResults_expErrors_length (oracle : Nat → WriteRequestBody → FetchOutcome)
    (message : Option String) (branch : String) :
    ∀ (files : List BatchFile) (idx : Nat),
      (expResults oracle message branch files idx).length +
        (expErrors oracle message branch files idx).length = files.length
  | [], idx => by simp [expResults, expErrors]
  | file :: rest, idx => by
      have ih := expResults_expErrors_length oracle message branch rest (idx + 1)
      cases h : oracle idx (batchWriteBody message branch file) <;>
        simp [expResults, expErrors, h] <;> omega

theorem expOps_length (oracle : Nat → WriteRequestBody → FetchOutcome)
    (clock : Nat → Nat) (userId : Nat) (branch : String) (message : Option String) :
    ∀ (files : List BatchFile) (idx opId : Nat),
      (expOps oracle clock userId branch message files idx opId).length =
        (expResults oracle message branch files idx).length
  | [], idx, opId => by simp [expOps, expResults]
  | file :: rest, idx, opId => by
      cases h : oracle idx (batchWriteBody message branch file) <;>
        simp [expOps, expResults, h,
          expOps_length oracle clock userId branch message rest (idx + 1)]

theorem expOps_fields (oracle : Nat → WriteRequestBody → FetchOutcome)
    (clock : Nat → Nat) (userId : Nat) (branch : String) (message : Option String) :
    ∀ (files : List BatchFile) (idx opId : Nat) (op : FileOperation),
      op ∈ expOps oracle clock userId branch message files idx opId →
      op.status = "completed" ∧ op.repositoryId = 0 ∧
        op.operation = "upload" ∧ op.userId = userId
  | [], idx, opId, op => by simp [expOps]
  | file :: rest, idx, opId, op => by
      cases h : oracle idx (batchWriteBody message branch file) with
      | ok result =>
          intro hmem
          rw [expOps, h] at hmem
          simp only [List.mem_cons] at hmem
          rcases hmem with heq | hmem
        

          · subst heq; simp [mkBatchOp]
          · exact expOps_fields oracle clock userId branch message rest
              (idx + 1) (opId + 1) op hmem
      | httpError result =>
          intro hmem
          rw [expOps, h] at hmem
          exact expOps_fields oracle clock userId branch message rest
            (idx + 1) opId op hmem
      | threw errMessage =>
          intro hmem
          rw [expOps, h] at hmem
          exact expOps_fields oracle clock userId branch message rest
            (idx + 1) opId op hmem

theorem exp_entries_cover (oracle : Nat → WriteRequestBody → FetchOutcome)
    (message : Option String) (branch : String) :
    ∀ (files : List BatchFile) (idx i : Nat) (hi : i < files.length),
      (if oracleOk (oracle (idx + i)
            (batchWriteBody message branch (files.get ⟨i, hi⟩)))
       then (files.get ⟨i, hi⟩).path ∈
              (expResults oracle message branch files idx).map ResultEntry.path
       else (files.get ⟨i, hi⟩).path ∈
              (expErrors oracle message branch files idx).map ErrorEntry.path)
  | [], idx, i, hi => by simp at hi
  | file :: rest, idx, 0, hi => by
      simp only [List.get, Nat.add_zero]
      cases h : oracle idx (batchWriteBody message branch file) <;>
        simp [oracleOk, expResults, expErrors, h]
  | file :: rest, idx, i + 1, hi => by
      have hi' : i < rest.length := Nat.lt_of_succ_lt_succ hi
      have ih := exp_entries_cover oracle message branch rest (idx + 1) i hi'
      have harith : idx + (i + 1) = idx + 1 + i := by omega
      simp only [List.get, harith]
      cases h : oracle idx (batchWriteBody message branch file) with
      | ok result =>
          rw [expResults, expErrors, h]
          dsimp only
          split at ih <;> rename_i hcond
          · rw [if_pos hcond]
            simp only [List.map_cons, List.mem_cons]
            exact Or.inr ih
          · rw [if_neg hcond]
            exact ih
      | httpError result =>
          rw [expResults, expErrors, h]
          dsimp only
          split at ih <;> rename_i hcond
          · rw [if_pos hcond]
            exact ih
          · rw [if_neg hcond]
            simp only [List.map_cons, List.mem_cons]
            exact Or.inr ih
      | threw errMessage =>
          rw [expResults, expErrors, h]
          dsimp only
          split at ih <;> rename_i hcond
          · rw [if_pos hcond]
            exact ih
          · rw [if_neg hcond]
            simp only [List.map_cons, List.mem_cons]
            exact Or.inr ih

theorem uploadBatchHandler_ok_inv (oracle : Nat → WriteRequestBody → FetchOutcome)
    (clock : Nat → Nat) (session : Option Nat) (body : BatchRequestBody)
    (s : MemStorage) (files : List BatchFile) (resp : BatchResponse)
    (s' : MemStorage) (hfiles : body.files = .arr files)
    (h : uploadBatchHandler oracle clock session body s = (.ok resp, s')) :
    ∃ userId user,
      sessionUserId session = some userId ∧ s.getUser userId = some user ∧
      files ≠ [] ∧
      (let branch := body.branch.getD "main"
       resp = { success :=
                  (expErrors oracle body.message branch files 0).length == 0,
                uploaded := (expResults oracle body.message branch files 0).length,
                failed := (expErrors oracle body.message branch files 0).length,
                results := expResults oracle body.message branch files 0,
                errors := expErrors oracle body.message branch files 0 } ∧
       s' = { users := s.users,
              fileOperations := s.fileOperations ++
                expOps oracle clock userId branch body.message files 0 s.currentOpId,
              currentUserId := s.currentUserId,
              currentOpId :=
                s.currentOpId + countOk oracle body.message branch files 0 }) := by
  rw [uploadBatchHandler] at h
  cases hses : sessionUserId session with
  | none => rw [hses] at h; exact absurd h (by simp)
  | some userId =>
    rw [hses] at h
    dsimp only at h
    cases hu : s.getUser userId with
    | none => rw [hu] at h; exact absurd h (by simp)
    | some user =>
      rw [hu] at h
      dsimp only at h
      rw [hfiles] at h
      dsimp only at h
      by_cases hne : files.isEmpty
      · rw [if_pos hne] at h; exact absurd h (by simp)
      · rw [if_neg hne] at h
        rw [batchLoop_eq] at h
        refine ⟨userId, user, rfl, hu, by simpa [List.isEmpty_iff] using hne, ?_, ?_⟩
        · have := (Prod.mk.injEq _ _ _ _).mp h
          have hr := this.1
          cases hr
          simp
        · have := (Prod.mk.injEq _ _ _ _).mp h
          exact this.2.symm

theorem uploadBatchHandler_run (oracle : Nat → WriteRequestBody → FetchOutcome)
    (clock : Nat → Nat) (userId : Nat) (body : BatchRequestBody) (s : MemStorage)
    (files : List BatchFile) (user : User) (h0 : userId ≠ 0)
    (hu : s.getUser userId = some user) (hfiles : body.files = .arr files)
    (hne : files ≠ []) :
    uploadBatchHandler oracle clock (some userId) body s =
      (.ok { success := (expErrors oracle body.message (body.branch.getD "main")
                files 0).length == 0,
             uploaded := (expResults oracle body.message (body.branch.getD "main")
                files 0).length,
             failed := (expErrors oracle body.message (body.branch.getD "main")
                files 0).length,
             results := expResults oracle body.message (body.branch.getD "main")
                files 0,
             errors := expErrors oracle body.message (body.branch.getD "main")
                files 0 },
       { users := s.users,
         fileOperations := s.fileOperations ++ expOps oracle clock userId
           (body.branch.getD "main") body.message files 0 s.currentOpId,
         currentUserId := s.currentUserId,
         currentOpId := s.currentOpId +
           countOk oracle body.message (body.branch.getD "main") files 0 }) := by
  have hses : sessionUserId (some userId) = some userId := by
    simp [sessionUserId, h0]
  rw [uploadBatchHandler, hses]
  dsimp only
  rw [hu]
  dsimp only
  rw [hfiles]
  dsimp only
  rw [if_neg (by simp [List.isEmpty_iff, hne])]
  rw [batchLoop_eq]
  simp

/-- C2: whenever the batch route answers with its aggregate, `uploaded + failed`
equals the number of files in the submitted array, and `success` is true
exactly when `failed` is zero. -/
theorem batch_aggregate_counts (oracle : Nat → WriteRequestBody → FetchOutcome)
    (clock : Nat → Nat) (session : Option Nat) (body : BatchRequestBody)
    (s : MemStorage) (files : List BatchFile) (resp : BatchResponse)
    (s' : MemStorage) (hfiles : body.files = .arr files)
    (h : uploadBatchHandler oracle clock session body s = (.ok resp, s')) :
    resp.uploaded + resp.failed = files.length ∧
      (resp.success = true ↔ resp.failed = 0) := by
  obtain ⟨userId, user, hses, hu, hne, hro⟩ :=
    uploadBatchHandler_ok_inv oracle clock session body s files resp s' hfiles h
  dsimp only at hro
  obtain ⟨hresp, -⟩ := hro
  subst hresp
  refine ⟨expResults_expErrors_length oracle body.message
    (body.branch.getD "main") files 0, ?_⟩
  simp

/-- Witness for `batch_aggregate_counts`: a concrete two-file batch with one
store failure answers uploaded 1, failed 1, success false. -/
theorem batch_aggregate_counts_witness :
    wBatchResp.uploaded + wBatchResp.failed = wBatchFiles.length ∧
      (wBatchResp.success = true ↔ wBatchResp.failed = 0) :=
  batch_aggregate_counts wBatchOracle wClock (some 1) wBatchBody wStore
    wBatchFiles wBatchResp wBatchStore2 rfl (by decide)

/-- Counterexample to C1: a batch with a single file whose write fails at the
store answers `failed = 1`, yet the storage still holds no file operation at
all afterwards — a failed attempt creates no Activity Ledger entry, so the
number of new entries (0) differs from the number of files (1) and no entry
with status "failed" exists. -/
theorem batch_failed_write_creates_no_ledger_entry :
    uploadBatchHandler c1Oracle c1Clock (some 1) c1Body wStore =
      (.ok { success := false, uploaded := 0, failed := 1, results := [],
             errors := [{ path := "a.txt", error := "Invalid request" }] },
       wStore) ∧
    c1Files.length = 1 ∧ wStore.fileOperations = [] := by
  refine ⟨?_, rfl, rfl⟩
  decide

/-- C1 (amended): the batch route creates exactly one Activity Ledger entry per
successful write and none for a failed attempt — the number of new entries
equals the `uploaded` count (not the number of files), and every new entry has
status "completed". -/
theorem batch_ledger_entries_match_successes
    (oracle : Nat → WriteRequestBody → FetchOutcome) (clock : Nat → Nat)
    (session : Option Nat) (body : BatchRequestBody) (s : MemStorage)
    (files : List BatchFile) (resp : BatchResponse) (s' : MemStorage)
    (hfiles : body.files = .arr files)
    (h : uploadBatchHandler oracle clock session body s = (.ok resp, s')) :
    s'.fileOperations.length = s.fileOperations.length + resp.uploaded ∧
      ∀ op ∈ s'.fileOperations.drop s.fileOperations.length,
        op.status = "completed" := by
  obtain ⟨userId, user, hses, hu, hne, hro⟩ :=
    uploadBatchHandler_ok_inv oracle clock session body s files resp s' hfiles h
  dsimp only at hro
  obtain ⟨hresp, hs'⟩ := hro
  subst hresp
  subst hs'
  constructor
  · simp [expOps_length]
  · intro op hmem
    dsimp only at hmem
    rw [List.drop_left] at hmem
    exact (expOps_fields oracle clock userId (body.branch.getD "main")
      body.message files 0 s.currentOpId op hmem).1

/-- Witness for `batch_ledger_entries_match_successes`: the concrete two-file
run (one failure, one success) adds exactly one ledger entry, and it is
"completed". -/
theorem batch_ledger_entries_match_successes_witness :
    wBatchStore2.fileOperations.length =
        wStore.fileOperations.length + wBatchResp.uploaded ∧
      ∀ op ∈ wBatchStore2.fileOperations.drop wStore.fileOperations.length,
        op.status = "completed" :=
  batch_ledger_entries_match_successes wBatchOracle wClock (some 1) wBatchBody
    wStore wBatchFiles wBatchResp wBatchStore2 rfl (by decide)

/-- C3: with a valid session, stored user, and non-empty file list, the batch
route answers its 200 aggregate no matter what mixture of per-file outcomes
the store produces — one file's store failure or thrown error never becomes a
whole-request failure and never aborts the loop: every file of the list shows
up in the aggregate, in `results` when its own write succeeded and in `errors`
otherwise. -/
theorem batch_partial_failure_continues
    (oracle : Nat → WriteRequestBody → FetchOutcome) (clock : Nat → Nat)
    (userId : Nat) (body : BatchRequestBody) (s : MemStorage)
    (files : List BatchFile) (user : User) (h0 : userId ≠ 0)
    (hu : s.getUser userId = some user) (hfiles : body.files = .arr files)
    (hne : files ≠ []) :
    (∃ resp s', uploadBatchHandler oracle clock (some userId) body s =
        (.ok resp, s') ∧
      resp.results = expResults oracle body.message (body.branch.getD "main")
        files 0 ∧
      resp.errors = expErrors oracle body.message (body.branch.getD "main")
        files 0) ∧
    ∀ i (hi : i < files.length),
      (if oracleOk (oracle i (batchWriteBody body.message
            (body.branch.getD "main") (files.get ⟨i, hi⟩)))
       then (files.get ⟨i, hi⟩).path ∈
              (expResults oracle body.message (body.branch.getD "main")
                files 0).map ResultEntry.path
       else (files.get ⟨i, hi⟩).path ∈
              (expErrors oracle body.message (body.branch.getD "main")
                files 0).map ErrorEntry.path) := by
  constructor
  · refine ⟨_, _, uploadBatchHandler_run oracle clock userId body s files user
      h0 hu hfiles hne, rfl, rfl⟩
  · intro i hi
    have h := exp_entries_cover oracle body.message (body.branch.getD "main")
      files 0 i hi
    simpa using h

/-- Witness for `batch_partial_failure_continues`: the concrete two-file batch
whose first write fails still answers 200 and covers both files. -/
theorem batch_partial_failure_continues_witness :
    (∃ resp s', uploadBatchHandler wBatchOracle wClock (some 1) wBatchBody
        wStore = (.ok resp, s') ∧
      resp.results = expResults wBatchOracle wBatchBody.message
        (wBatchBody.branch.getD "main") wBatchFiles 0 ∧
      resp.errors = expErrors wBatchOracle wBatchBody.message
        (wBatchBody.branch.getD "main") wBatchFiles 0) ∧
    ∀ i (hi : i < wBatchFiles.length),
      (if oracleOk (wBatchOracle i (batchWriteBody wBatchBody.message
            (wBatchBody.branch.getD "main") (wBatchFiles.get ⟨i, hi⟩)))
       then (wBatchFiles.get ⟨i, hi⟩).path ∈
              (expResults wBatchOracle wBatchBody.message
                (wBatchBody.branch.getD "main") wBatchFiles 0).map
                ResultEntry.path
       else (wBatchFiles.get ⟨i, hi⟩).path ∈
              (expErrors wBatchOracle wBatchBody.message
                (wBatchBody.branch.getD "main") wBatchFiles 0).map
                ErrorEntry.path) :=
  batch_partial_failure_continues wBatchOracle wClock 1 wBatchBody wStore
    wBatchFiles wUser (by decide) (by decide) rfl (by decide)

/-- Counterexample to C4: `updateFileOperationStatus` moves a record whose
status is "completed" back to "pending" — status transitions are not
forward-only. -/
theorem update_status_moves_completed_back_to_pending :
    c4op.status = "completed" ∧
    (c4store.updateFileOperationStatus 1 "pending").1 =
      some { c4op with status := "pending" } ∧
    (c4store.updateFileOperationStatus 1 "pending").2.fileOperations =
      [{ c4op with status := "pending" }] := by
  refine ⟨rfl, ?_, ?_⟩ <;> decide

/-- C4 (amended): `updateFileOperationStatus` enforces no transition
discipline: for any stored record it unconditionally replaces the status with
the supplied value — including backward moves such as completed→pending or
completed↔failed. -/
theorem update_file_operation_status_overwrites (s : MemStorage) (id : Nat)
    (status : String) (op : FileOperation)
    (hfind : s.fileOperations.find? (fun o => o.id == id) = some op) :
    (s.updateFileOperationStatus id status).1 =
      some { op with status := status } := by
  rw [MemStorage.updateFileOperationStatus, hfind]

/-- Witness for `update_file_operation_status_overwrites` at the concrete
completed record, moving it to "failed". -/
theorem update_file_operation_status_overwrites_witness :
    (c4store.updateFileOperationStatus 1 "failed").1 =
      some { c4op with status := "failed" } :=
  update_file_operation_status_overwrites c4store 1 "failed" c4op (by decide)

/-- C6: with a valid session and stored user, a batch body whose `files` field
is missing, not an array, or an empty array is answered with the 400
validation rejection, with the storage unchanged (no ledger entry) and the
store oracle never consulted (the result is the same for every oracle). -/
theorem batch_validation_rejected_before_any_effect
    (oracle : Nat → WriteRequestBody → FetchOutcome) (clock : Nat → Nat)
    (userId : Nat) (body : BatchRequestBody) (s : MemStorage) (user : User)
    (h0 : userId ≠ 0) (hu : s.getUser userId = some user)
    (hbad : filesFieldInvalid body.files = true) :
    uploadBatchHandler oracle clock (some userId) body s =
      (.filesRequired, s) := by
  have hses : sessionUserId (some userId) = some userId := by
    simp [sessionUserId, h0]
  rw [uploadBatchHandler, hses]
  dsimp only
  rw [hu]
  dsimp only
  cases hf : body.files with
  | missing => rfl
  | nonArray => rfl
  | arr files =>
      rw [hf] at hbad
      rw [filesFieldInvalid] at hbad
      dsimp only
      rw [if_pos hbad]

/-- Witness for `batch_validation_rejected_before_any_effect`: an empty
`files` array is rejected with no state change. -/
theorem batch_validation_rejected_before_any_effect_witness :
    uploadBatchHandler c1Oracle c1Clock (some 1) c6Body wStore =
      (.filesRequired, wStore) :=
  batch_validation_rejected_before_any_effect c1Oracle c1Clock 1 c6Body wStore
    wUser (by decide) (by decide) (by decide)

/-- C7: GET /api/activity is read-only — it leaves the storage unchanged — and
re-querying it without intervening operations answers the identical result
(same records, same order). -/
theorem activity_query_idempotent (session : Option Nat) (s : MemStorage) :
    (activityHandler session s).2 = s ∧
      activityHandler session (activityHandler session s).2 =
        activityHandler session s := by
  have h2 : (activityHandler session s).2 = s := by
    cases hses : sessionUserId session <;> simp [activityHandler, hses]
  exact ⟨h2, by rw [h2]⟩

/-- C5: for an authenticated session, GET /api/activity answers at most 10
records, all belonging to the session's user (no other user's records appear),
ordered newest-first by `createdAt`; moreover they are the most recent ones —
any of the user's records left out is no newer than every record returned. -/
theorem activity_returns_recent_user_records (session : Option Nat) (userId : Nat)
    (s : MemStorage) (ops : List FileOperation) (s' : MemStorage)
    (hses : session = some userId) (h0 : userId ≠ 0)
    (h : activityHandler session s = (.ok ops, s')) :
    ops.length ≤ 10 ∧ (∀ op ∈ ops, op.userId = userId) ∧
      ops.Pairwise opLater ∧
      ∀ op ∈ s.fileOperations, op.userId = userId → op ∉ ops →
        ∀ op' ∈ ops, op.createdAt ≤ op'.createdAt := by
  subst hses
  have hsid : sessionUserId (some userId) = some userId := by
    simp [sessionUserId, h0]
  rw [activityHandler, hsid] at h
  dsimp only at h
  obtain ⟨h1, -⟩ := Prod.mk.injEq .. |>.mp h
  have hops : ops = s.getUserFileOperations userId 10 := by
    cases h1; rfl
  subst hops
  rw [MemStorage.getUserFileOperations]
  set L := s.fileOperations.filter (fun op => op.userId == userId) with hL
  set S := L.insertionSort opLater with hS
  have hsorted : S.Pairwise opLater := List.sorted_insertionSort opLater L
  refine ⟨?_, ?_, ?_, ?_⟩
  · simp [List.length_take]
  · intro op hmem
    have hmemS : op ∈ S := List.take_subset 10 S hmem
    have hmemL : op ∈ L := (List.mem_insertionSort opLater).mp hmemS
    have := (List.mem_filter.mp hmemL).2
    simpa using this
  · exact hsorted.sublist (List.take_sublist 10 S)
  · intro op hmem huid hnotin op' hmem'
    have hmemL : op ∈ L := List.mem_filter.mpr ⟨hmem, by simpa using huid⟩
    have hmemS : op ∈ S := (List.mem_insertionSort opLater).mpr hmemL
    have hdrop : op ∈ S.drop 10 := by
      rw [← List.take_append_drop 10 S] at hmemS
      rcases List.mem_append.mp hmemS with h3 | h3
      · exact absurd h3 hnotin
      · exact h3
    have hcross : ∀ a ∈ S.take 10, ∀ b ∈ S.drop 10, opLater a b := by
      have hp : (S.take 10 ++ S.drop 10).Pairwise opLater := by
        rw [List.take_append_drop]
        exact hsorted
      exact (List.pairwise_append.mp hp).2.2
    exact hcross op' hmem' op hdrop

/-- Witness for `activity_returns_recent_user_records` against the concrete
three-record store: user 1's two records come back newest-first. -/
theorem activity_returns_recent_user_records_witness :
    c5ops.length ≤ 10 ∧ (∀ op ∈ c5ops, op.userId = 1) ∧
      c5ops.Pairwise opLater ∧
      ∀ op ∈ c5store.fileOperations, op.userId = 1 → op ∉ c5ops →
        ∀ op' ∈ c5ops, op.createdAt ≤ op'.createdAt :=
  activity_returns_recent_user_records (some 1) 1 c5store c5ops c5store rfl
    (by decide) (by decide)

/-- C8: every Activity Ledger record the single-file upload route, the
single-file delete route, and the batch upload route create is logged under
the placeholder repository identifier 0 — never the target repository's true
id. -/
theorem file_ops_logged_with_placeholder_repository_id :
    (∀ (oracle : WriteRequestBody → FetchOutcome) (now : Nat)
       (session : Option Nat) (filePath : String) (body : PutBody)
       (s : MemStorage) (op : FileOperation),
       op ∈ (putHandler oracle now session filePath body s).2.fileOperations.drop
              s.fileOperations.length →
       op.repositoryId = 0) ∧
    (∀ (oracle : WriteRequestBody → FetchOutcome) (now : Nat)
       (session : Option Nat) (filePath : String) (body : DeleteBody)
       (s : MemStorage) (op : FileOperation),
       op ∈ (deleteHandler oracle now session filePath body s).2.fileOperations.drop
              s.fileOperations.length →
       op.repositoryId = 0) ∧
    (∀ (oracle : Nat → WriteRequestBody → FetchOutcome) (clock : Nat → Nat)
       (session : Option Nat) (body : BatchRequestBody) (s : MemStorage)
       (op : FileOperation),
       op ∈ (uploadBatchHandler oracle clock session body s).2.fileOperations.drop
              s.fileOperations.length →
       op.repositoryId = 0) := by
  refine ⟨?_, ?_, ?_⟩
  · intro oracle now session filePath body s op hmem
    rw [putHandler] at hmem
    cases hses : sessionUserId session with
    | none => rw [hses] at hmem; simp [List.drop_length] at hmem
    | some userId =>
      rw [hses] at hmem
      dsimp only at hmem
      cases hu : s.getUser userId with
      | none => rw [hu] at hmem; simp [List.drop_length] at hmem
      | some user =>
        rw [hu] at hmem
        dsimp only at hmem
        cases hor : oracle (putRequestBody body.message body.content
            (body.branch.getD "main") body.sha filePath) with
        | threw m => rw [hor] at hmem; simp [List.drop_length] at hmem
        | ok result =>
            rw [hor] at hmem
            dsimp only [MemStorage.createFileOperation] at hmem
            rw [List.drop_left] at hmem
            simp only [List.mem_singleton] at hmem
            subst hmem
            rfl
        | httpError result =>
            rw [hor] at hmem
            dsimp only [MemStorage.createFileOperation] at hmem
            rw [List.drop_left] at hmem
            simp only [List.mem_singleton] at hmem
            subst hmem
            rfl
  · intro oracle now session filePath body s op hmem
    rw [deleteHandler] at hmem
    cases hses : sessionUserId session with
    | none => rw [hses] at hmem; simp [List.drop_length] at hmem
    | some userId =>
      rw [hses] at hmem
      dsimp only at hmem
      cases hu : s.getUser userId with
      | none => rw [hu] at hmem; simp [List.drop_length] at hmem
      | some user =>
        rw [hu] at hmem
        dsimp only at hmem
        cases hor : oracle (deleteRequestBody body.message
            (body.branch.getD "main") body.sha filePath) with
        | threw m => rw [hor] at hmem; simp [List.drop_length] at hmem
        | ok result =>
            rw [hor] at hmem
            dsimp only [MemStorage.createFileOperation] at hmem
            rw [List.drop_left] at hmem
            simp only [List.mem_singleton] at hmem
            subst hmem
            rfl
        | httpError result =>
            rw [hor] at hmem
            dsimp only [MemStorage.createFileOperation] at hmem
            rw [List.drop_left] at hmem
            simp only [List.mem_singleton] at hmem
            subst hmem
            rfl
  · intro oracle clock session body s op hmem
    rw [uploadBatchHandler] at hmem
    cases hses : sessionUserId session with
    | none => rw [hses] at hmem; simp [List.drop_length] at hmem
    | some userId =>
      rw [hses] at hmem
      dsimp only at hmem
      cases hu : s.getUser userId with
      | none => rw [hu] at hmem; simp [List.drop_length] at hmem
      | some user =>
        rw [hu] at hmem
        dsimp only at hmem
        cases hf : body.files with
        | missing => rw [hf] at hmem; simp [List.drop_length] at hmem
        | nonArray => rw [hf] at hmem; simp [List.drop_length] at hmem
        | arr files =>
          rw [hf] at hmem
          dsimp only at hmem
          by_cases hemp : files.isEmpty
          · rw [if_pos hemp] at hmem; simp [List.drop_length] at hmem
          · rw [if_neg hemp] at hmem
            rw [batchLoop_eq] at hmem
            dsimp only at hmem
            rw [List.drop_left] at hmem
            exact (expOps_fields oracle clock userId (body.branch.getD "main")
              body.message files 0 s.currentOpId op hmem).2.1

/-- Witness for `file_ops_logged_with_placeholder_repository_id`: the concrete
records created by one PUT, one DELETE, and one batch run all carry
repositoryId 0. -/
theorem file_ops_logged_with_placeholder_repository_id_witness :
    wPutOp.repositoryId = 0 ∧ wDelOp.repositoryId = 0 ∧
      wBatchOp.repositoryId = 0 :=
  ⟨file_ops_logged_with_placeholder_repository_id.1 wPutOracle 7 (some 1)
      "f.txt" wPutBody wStore wPutOp (by decide),
   file_ops_logged_with_placeholder_repository_id.2.1 wDelOracle 8 (some 1)
      "g.txt" wDelBody wStore wDelOp (by decide),
   file_ops_logged_with_placeholder_repository_id.2.2 wBatchOracle wClock
      (some 1) wBatchBody wStore wBatchOp (by decide)⟩

/-- C9: the write request the batch route sends to the remote store never
carries a `sha` field, whatever the request contents; consequently, under the
spec-modelled store contract requiring the current content hash to overwrite,
a batch write to a path that already exists in the repository always fails —
unlike the single-file PUT route, which forwards a supplied (truthy) sha. -/
theorem batch_write_request_never_carries_sha (message : Option String)
    (branch : String) (file : BatchFile) :
    (batchWriteBody message branch file).sha = none ∧
    (∀ (existing : List (String × String)) (currentSha : String),
       existing.lookup file.path = some currentSha →
       storeWriteOk existing file.path (batchWriteBody message branch file)
         = false) ∧
    (∀ (content filePath shaVal : String), shaVal ≠ "" →
       (putRequestBody message content branch (some shaVal) filePath).sha =
         some shaVal) := by
  refine ⟨rfl, ?_, ?_⟩
  · intro existing currentSha hlook
    rw [storeWriteOk, hlook]
    rfl
  · intro content filePath shaVal hne
    simp [putRequestBody, jsTruthy, hne]

/-- Witness for `batch_write_request_never_carries_sha` at a concrete file and
a store already holding that path. -/
theorem batch_write_request_never_carries_sha_witness :
    (batchWriteBody none "main" { path := "a.txt", content := "x" }).sha =
      none ∧
    storeWriteOk [("a.txt", "oldsha")] "a.txt"
      (batchWriteBody none "main" { path := "a.txt", content := "x" }) =
      false ∧
    (putRequestBody none "x" "main" (some "abc") "f.txt").sha = some "abc" :=
  have h := batch_write_request_never_carries_sha none "main"
    { path := "a.txt", content := "x" }
  ⟨h.1, h.2.1 [("a.txt", "oldsha")] "oldsha" (by decide),
   h.2.2 "x" "f.txt" "abc" (by decide)⟩

/-- C10: the user objects GET /api/user and a successful POST /api/auth/token
answer with never carry the stored GitHub access token: the serialized
`accessToken` field is absent / undefined. -/
theorem client_responses_omit_access_token :
    (∀ (session : Option Nat) (s : MemStorage) (u : ClientUser)
       (s' : MemStorage), getUserHandler session s = (.ok u, s') →
       u.accessToken = none) ∧
    (∀ (tokenValid : Bool) (ghUser : GithubUser) (now : Nat)
       (token : Option String) (s : MemStorage) (userOpt : Option ClientUser)
       (s' : MemStorage) (cu : ClientUser),
       tokenAuthHandler tokenValid ghUser now token s = (.ok userOpt, s') →
       userOpt = some cu → cu.accessToken = none) := by
  constructor
  · intro session s u s' h
    rw [getUserHandler] at h
    cases hses : sessionUserId session with
    | none => rw [hses] at h; exact absurd h (by simp)
    | some userId =>
      rw [hses] at h
      dsimp only at h
      cases hu : s.getUser userId with
      | none => rw [hu] at h; exact absurd h (by simp)
      | some user =>
        rw [hu] at h
        dsimp only at h
        simp only [Prod.mk.injEq, GetUserResult.ok.injEq] at h
        rw [← h.1]
        rfl
  · intro tokenValid ghUser now token s userOpt s' cu h hcu
    rw [tokenAuthHandler] at h
    cases htok : jsTruthy token with
    | none => rw [htok] at h; exact absurd h (by simp)
    | some tok =>
      rw [htok] at h
      dsimp only at h
      by_cases hv : tokenValid
      · rw [if_pos hv] at h
        cases hg : s.getUserByGithubId (toString ghUser.id) with
        | none =>
            rw [hg] at h
            dsimp only at h
            simp only [Prod.mk.injEq, TokenAuthResult.ok.injEq] at h
            rw [← h.1] at hcu
            simp only [Option.some.injEq] at hcu
            rw [← hcu]
            rfl
        | some existing =>
            rw [hg] at h
            dsimp only at h
            simp only [Prod.mk.injEq, TokenAuthResult.ok.injEq] at h
            rw [← h.1] at hcu
            obtain ⟨u0, -, hu0⟩ := Option.map_eq_some'.mp hcu
            rw [← hu0]
            rfl
      · rw [if_neg hv] at h
        exact absurd h (by simp)

/-- Witness for `client_responses_omit_access_token`: the concrete GET
/api/user run for user 2 and the concrete token re-authentication run for
user 1 both answer token-free user objects. -/
theorem client_responses_omit_access_token_witness :
    wClientUser2.accessToken = none ∧ wClientUser.accessToken = none :=
  ⟨client_responses_omit_access_token.1 (some 2) c5store wClientUser2 c5store
      (by decide),
   client_responses_omit_access_token.2 true wGhUser 0 (some "newtok") wStore
      (some wClientUser) wTokStore wClientUser (by decide) rfl⟩
